import Mathlib

set_option autoImplicit false

/-!
Shallow embedding of `src/controlflow/core/task.py`: the Task entity's
status state machine, dependency-graph wiring, result validation and the
execution loop, together with proofs about the specified properties.

Python objects are modelled by a `Store` mapping object identities (`Nat`)
to `Task` records; Python `set[Task]` fields are duplicate-free lists of
identities; raising is modelled by `Except`.
-/

namespace ControlFlow

/-- Task lifecycle states (`TaskStatus` in `task.py`). -/
inductive TaskStatus where
  | INCOMPLETE
  | SUCCESSFUL
  | FAILED
  | SKIPPED
  deriving DecidableEq, Repr

/-- Python runtime values that can appear as task results. -/
inductive PyValue where
  | none
  | int (n : Int)
  | str (s : String)
  deriving DecidableEq, Repr

/-- Result-type descriptors for `Task.result_type`. `noneRT` is Python `None`
(no result expected); `tstr` / `tint` are primitive types; `tliteral` is the
closed literal set produced by `_turn_list_into_literal_result_type`.
Tabular (`pd.DataFrame` / `pd.Series`) and free-form class descriptors are
outside this model: no claim touches them. -/
inductive ResultType where
  | noneRT
  | tstr
  | tint
  | tliteral (vs : List PyValue)
  deriving DecidableEq, Repr

/-- Model of pydantic `TypeAdapter(result_type).validate_python(result)` in
lax mode: `tstr` accepts strings, `tint` accepts integers and numeric
strings, `tliteral vs` accepts exactly the listed values. -/
def type_adapter_validate (result_type : ResultType) (v : PyValue) :
    Except String PyValue :=
  match result_type with
  | ResultType.noneRT => Except.error "cannot adapt None"
  | ResultType.tstr =>
    match v with
    | PyValue.str s => Except.ok (PyValue.str s)
    | _ => Except.error "Input should be a valid string"
  | ResultType.tint =>
    match v with
    | PyValue.int n => Except.ok (PyValue.int n)
    | PyValue.str s =>
      match s.toInt? with
      | some n => Except.ok (PyValue.int n)
      | Option.none => Except.error "Input should be a valid integer"
    | _ => Except.error "Input should be a valid integer"
  | ResultType.tliteral vs =>
    if v ∈ vs then Except.ok v
    else Except.error "Input should be one of the permitted literals"

/-- Function `validate_result` from `task.py`: a `None` result type rejects any
non-null result and passes null through; otherwise the result is validated
by the type adapter. (The `PydanticSchemaGenerationError` fallback and the
tabular conversions concern descriptor kinds outside this model.) -/
def validate_result (result : PyValue) (result_type : ResultType) :
    Except String PyValue :=
  if result_type = ResultType.noneRT then
    if result ≠ PyValue.none then
      Except.error "Task has result_type=None, but a result was provided."
    else Except.ok result
  else
    type_adapter_validate result_type result

/-- The state of one `Task` object. Graph fields (`depends_on`, `_subtasks`,
`_downstreams`, `parent`) hold references, modelled as `Nat` object
identities into a `Store`. -/
structure Task where
  id : String
  objective : String
  instructions : Option String
  status : TaskStatus
  result : PyValue
  result_type : ResultType
  error : Option String
  depends_on : List Nat
  subtasks : List Nat
  downstreams : List Nat
  parent : Option Nat
  deriving DecidableEq, Repr

/-- The heap of task objects, keyed by object identity. -/
abbrev Store := Nat → Option Task

/-- Write one task object back into the heap. -/
def Store.set (σ : Store) (r : Nat) (d : Task) : Store :=
  fun j => if j = r then some d else σ j

/-- Python `set.add` on a set modelled as a duplicate-free list. -/
def setAdd (xs : List Nat) (x : Nat) : List Nat :=
  if x ∈ xs then xs else xs ++ [x]

/-- Field `Task.status` read through the heap. -/
def task_status (σ : Store) (r : Nat) : Option TaskStatus :=
  (σ r).map Task.status

/-- Field `Task.result` read through the heap (null when the task is unknown). -/
def task_result (σ : Store) (r : Nat) : PyValue :=
  match σ r with
  | some d => d.result
  | Option.none => PyValue.none

/-- Field `Task.error` read through the heap. -/
def task_error (σ : Store) (r : Nat) : Option String :=
  match σ r with
  | some d => d.error
  | Option.none => Option.none

/-- Field `Task.result_type` read through the heap. -/
def task_result_type (σ : Store) (r : Nat) : Option ResultType :=
  (σ r).map Task.result_type

/-- Field `Task.parent` read through the heap. -/
def task_parent (σ : Store) (r : Nat) : Option Nat :=
  match σ r with
  | some d => d.parent
  | Option.none => Option.none

/-- Field `Task.depends_on` read through the heap. -/
def task_depends_on (σ : Store) (r : Nat) : List Nat :=
  match σ r with
  | some d => d.depends_on
  | Option.none => []

/-- Field `Task._subtasks` read through the heap. -/
def task_subtasks (σ : Store) (r : Nat) : List Nat :=
  match σ r with
  | some d => d.subtasks
  | Option.none => []

/-- Field `Task._downstreams` read through the heap. -/
def task_downstreams (σ : Store) (r : Nat) : List Nat :=
  match σ r with
  | some d => d.downstreams
  | Option.none => []

/-- Predicate `Task.is_incomplete`. -/
def is_incomplete (σ : Store) (r : Nat) : Bool :=
  match σ r with
  | some d => decide (d.status = TaskStatus.INCOMPLETE)
  | Option.none => false

/-- Predicate `Task.is_complete`. -/
def is_complete (σ : Store) (r : Nat) : Bool :=
  match σ r with
  | some d => decide (d.status ≠ TaskStatus.INCOMPLETE)
  | Option.none => false

/-- Predicate `Task.is_successful`. -/
def is_successful (σ : Store) (r : Nat) : Bool :=
  match σ r with
  | some d => decide (d.status = TaskStatus.SUCCESSFUL)
  | Option.none => false

/-- Predicate `Task.is_failed`. -/
def is_failed (σ : Store) (r : Nat) : Bool :=
  match σ r with
  | some d => decide (d.status = TaskStatus.FAILED)
  | Option.none => false

/-- Predicate `Task.is_skipped`. -/
def is_skipped (σ : Store) (r : Nat) : Bool :=
  match σ r with
  | some d => decide (d.status = TaskStatus.SKIPPED)
  | Option.none => false

/-- Property `Task.is_ready`: incomplete and every dependency complete, recomputed
against the live heap on every read. -/
def is_ready (σ : Store) (r : Nat) : Bool :=
  is_incomplete σ r && (task_depends_on σ r).all (fun u => is_complete σ u)

/-- Method `Task.friendly_name`: the id plus the objective truncated at 50
characters. -/
def friendly_name (d : Task) : String :=
  let objective :=
    if d.objective.length > 50 then "\"" ++ d.objective.take 50 ++ "...\""
    else "\"" ++ d.objective ++ "\""
  "Task " ++ d.id ++ " (" ++ objective ++ ")"

/-- Reading `friendly_name` through the heap. -/
def friendly_name_of (σ : Store) (r : Nat) : String :=
  match σ r with
  | some d => friendly_name d
  | Option.none => ""

/-- Errors raised by the task engine. `precondition` carries the rendered
message together with the list of friendly names of the blocking tasks that
the message enumerates. -/
inductive TaskError where
  | configuration (msg : String)
  | precondition (msg : String) (blocking : List String)
  | validation (msg : String)
  deriving DecidableEq, Repr

/-- The `mark_successful` message for incomplete upstream dependencies. -/
def dep_block_message (objective : String) (blocking : List String) : String :=
  "Task " ++ objective ++ " cannot be marked successful until all of its " ++
    "upstream dependencies are completed. Incomplete dependencies are: " ++
    String.intercalate ", " blocking

/-- The `mark_successful` message for incomplete subtasks. -/
def subtask_block_message (objective : String) (blocking : List String) :
    String :=
  "Task " ++ objective ++ " cannot be marked successful until all of its " ++
    "subtasks are completed. Incomplete subtasks are: " ++
    String.intercalate ", " blocking

/-- Method `Task.set_status`: sets the status unconditionally (the optional tui
observer carries no task state and is not modelled). -/
def set_status (σ : Store) (r : Nat) (status : TaskStatus) : Store :=
  match σ r with
  | some d => σ.set r { d with status := status }
  | Option.none => σ

/-- The confirmation string the mark operations return; `agent` models
`ctx.get("controller_agent")`. -/
def mark_message (d : Task) (verb : String) (agent : Option String) : String :=
  match agent with
  | some name => friendly_name d ++ " marked " ++ verb ++ " by " ++ name ++ "."
  | Option.none => friendly_name d ++ " marked " ++ verb ++ "."

/-- Method `Task.mark_failed`: stores the message in `error` and sets FAILED; no
precondition is checked. -/
def mark_failed (agent : Option String) (σ : Store) (r : Nat)
    (message : Option String) : Store × String :=
  match σ r with
  | some d =>
    let σ1 := σ.set r { d with error := message }
    (set_status σ1 r TaskStatus.FAILED, mark_message d "failed" agent)
  | Option.none => (σ, "")

/-- Method `Task.mark_skipped`: sets SKIPPED; no precondition is checked. -/
def mark_skipped (agent : Option String) (σ : Store) (r : Nat) :
    Store × String :=
  match σ r with
  | some d => (set_status σ r TaskStatus.SKIPPED, mark_message d "skipped" agent)
  | Option.none => (σ, "")

/-- Method `Task.mark_successful`: when `validate_upstreams` is set, first raises a
precondition error naming each incomplete dependency (then each incomplete
subtask); then validates the result against `result_type`; only after both
checks does it store the validated result and set SUCCESSFUL, so no error
path mutates the task. -/
def mark_successful (agent : Option String) (σ : Store) (r : Nat)
    (result : PyValue) (validate_upstreams : Bool) :
    Except TaskError (Store × String) :=
  match σ r with
  | Option.none => Except.error (TaskError.configuration "unknown task")
  | some d =>
    let incompleteDeps := d.depends_on.filter (fun u => is_incomplete σ u)
    let incompleteSubs := d.subtasks.filter (fun u => is_incomplete σ u)
    if validate_upstreams && !incompleteDeps.isEmpty then
      let blocking := incompleteDeps.map (friendly_name_of σ)
      Except.error
        (TaskError.precondition (dep_block_message d.objective blocking) blocking)
    else if validate_upstreams && !incompleteSubs.isEmpty then
      let blocking := incompleteSubs.map (friendly_name_of σ)
      Except.error
        (TaskError.precondition (subtask_block_message d.objective blocking) blocking)
    else
      match validate_result result d.result_type with
      | Except.error e => Except.error (TaskError.validation e)
      | Except.ok v =>
        let σ1 := σ.set r { d with result := v }
        Except.ok (set_status σ1 r TaskStatus.SUCCESSFUL,
          mark_message d "successful" agent)

/-- First statement of `Task.add_dependency`: `self.depends_on.add(task)`. -/
def depends_on_add (σ : Store) (self other : Nat) : Store :=
  match σ self with
  | some d => σ.set self { d with depends_on := setAdd d.depends_on other }
  | Option.none => σ

/-- Second statement of `Task.add_dependency`:
`task._downstreams.add(self)`. -/
def downstreams_add (σ : Store) (self other : Nat) : Store :=
  match σ other with
  | some d => σ.set other { d with downstreams := setAdd d.downstreams self }
  | Option.none => σ

/-- Method `Task.add_dependency`: inserts `other` into `self.depends_on` and `self`
into `other._downstreams` (the reverse edge). -/
def add_dependency (σ : Store) (self other : Nat) : Store :=
  downstreams_add (depends_on_add σ self other) self other

/-- The parent-wiring prefix of `Task.add_subtask`: sets `child.parent` when
unset, raises when the child already has a different parent. -/
def subtask_parent_wire (σ : Store) (self child : Nat) :
    Except TaskError Store :=
  match σ child with
  | Option.none => Except.error (TaskError.configuration "unknown task")
  | some dc =>
    match dc.parent with
    | Option.none => Except.ok (σ.set child { dc with parent := some self })
    | some p =>
      if p = self then Except.ok σ
      else
        Except.error (TaskError.configuration
          (friendly_name_of σ self ++ " already has a parent."))

/-- The final statements of `Task.add_subtask`:
`self._subtasks.add(task); self.depends_on.add(task)`. -/
def subtask_register (σ : Store) (self child : Nat) : Except TaskError Store :=
  match σ self with
  | some dp =>
    Except.ok (σ.set self
      { dp with
        subtasks := setAdd dp.subtasks child
        depends_on := setAdd dp.depends_on child })
  | Option.none => Except.error (TaskError.configuration "unknown task")

/-- Method `Task.add_subtask`: wires the parent back reference, then inserts the
child into `self._subtasks` and `self.depends_on`. Note: no `downstreams`
reverse edge is written. -/
def add_subtask (σ : Store) (self child : Nat) : Except TaskError Store :=
  match subtask_parent_wire σ self child with
  | Except.error e => Except.error e
  | Except.ok σ1 => subtask_register σ1 self child

/-- Python `.strip()`: drop leading and trailing whitespace. -/
def pyStrip (s : String) : String :=
  String.mk
    (((s.data.dropWhile Char.isWhitespace).reverse.dropWhile
      Char.isWhitespace).reverse)

/-- Python `a or b` with an optional-string left operand: `None` and the
empty string are falsy. -/
def pyOrStr (a : Option String) (b : String) : String :=
  match a with
  | some s => if s = "" then b else s
  | Option.none => b

/-- The `__init__` instruction assembly: when the ambient instruction stack
is non-empty, `kwargs["instructions"] = (kwargs.get("instructions") or "" +
"\n" + "\n".join(additional_instructions)).strip()`. Python precedence makes
the whole concatenation the right operand of `or`. -/
def init_instructions (explicitInstructions : Option String)
    (ambient : List String) : Option String :=
  if ambient.isEmpty then explicitInstructions
  else
    some (pyStrip (pyOrStr explicitInstructions
      ("" ++ "\n" ++ String.intercalate "\n" ambient)))

/-- The `__init__` kwarg assembly for `result_type`: the positional argument
is forwarded into kwargs only when it is not `None`. -/
def result_type_kwarg (arg : ResultType) : Option ResultType :=
  if arg ≠ ResultType.noneRT then some arg else Option.none

/-- The declared pydantic field default for `result_type`, namely `str`. -/
def result_type_field_default : ResultType := ResultType.tstr

/-- The `result_type` a freshly constructed task ends up with: the forwarded
kwarg when present, else the field default. -/
def init_result_type (arg : ResultType) : ResultType :=
  (result_type_kwarg arg).getD result_type_field_default

/-- The constructor arguments a caller can pass that this model covers.
`result_type` has Python default `None` (`noneRT`); `context_tasks` are the
tasks `collect_tasks` finds inside the `context` kwarg. -/
structure InitArgs where
  id : String
  objective : String
  instructions : Option String
  result_type : ResultType
  depends_on : List Nat
  parent : Option Nat
  context_tasks : List Nat
  deriving Repr

/-- One step of `_finalize`'s context folding:
`self.depends_on.add(task)`. Note: no reverse `downstreams` edge. -/
def context_dep_add (σ : Store) (r u : Nat) : Store :=
  match σ r with
  | some d => σ.set r { d with depends_on := setAdd d.depends_on u }
  | Option.none => σ

/-- Validator `_finalize`'s context folding: `self.depends_on.add(task)` for each task
collected from `context`. -/
def context_fold (σ : Store) (r : Nat) (context_tasks : List Nat) : Store :=
  context_tasks.foldl (fun s u => context_dep_add s r u) σ

/-- The `_default_parent` validator: an unset parent defaults to the top of
the ambient `ctx.get("tasks")` stack. -/
def default_parent (explicit : Option Nat) (ambientTasks : List Nat) :
    Option Nat :=
  match explicit with
  | some p => some p
  | Option.none => ambientTasks.getLast?

/-- The task record as pydantic builds it before `_finalize`: the status
field keeps its declared default INCOMPLETE, `result_type` comes from the
kwarg assembly, the private sets start empty. -/
def init_record (args : InitArgs) (ambientInstructions : List String)
    (parent : Option Nat) : Task :=
  { id := args.id
    objective := args.objective
    instructions := init_instructions args.instructions ambientInstructions
    status := TaskStatus.INCOMPLETE
    result := PyValue.none
    result_type := init_result_type args.result_type
    error := Option.none
    depends_on := args.depends_on.dedup
    subtasks := []
    downstreams := []
    parent := parent }

/-- Constructor `Task.__init__` plus the validators and `_finalize`, as a heap
transformation building the new object at fresh identity `ref`: `_finalize`
runs `add_dependency` for each `depends_on` kwarg member, then
`parent.add_subtask(self)` when a parent exists, then folds context tasks
into `depends_on`. `get_flow()` is modelled as absent (no ambient flow). -/
def mkTask (σ : Store) (ref : Nat) (args : InitArgs)
    (ambientInstructions : List String) (ambientTasks : List Nat) :
    Except TaskError Store :=
  let parent := default_parent args.parent ambientTasks
  let σ1 := args.depends_on.dedup.foldl (fun s u => add_dependency s ref u)
    (σ.set ref (init_record args ambientInstructions parent))
  match parent with
  | some p =>
    match add_subtask σ1 p ref with
    | Except.error e => Except.error e
    | Except.ok σ2 => Except.ok (context_fold σ2 ref args.context_tasks)
  | Option.none => Except.ok (context_fold σ1 ref args.context_tasks)

/-- Outcome of driving `Task._run` to completion through `Task.run`.
`pending` is the fuel-exhaustion artifact of the shallow embedding (the
Python loop would still be iterating); `iterationLimit rounds` is the
`ValueError` raised when the counter reaches the cap, carrying the number of
external rounds performed; `taskFailed` is the strict-failure `ValueError`;
`value` is the value `run` returns (null for a skipped task or a silent
failure). -/
inductive LoopOutcome where
  | pending
  | iterationLimit (rounds : Nat)
  | taskFailed (error : Option String)
  | value (v : PyValue)
  deriving DecidableEq, Repr

/-- Check `counter >= max_iterations`, where `none` is Python `float("inf")`. -/
def counterAtLimit (counter : Nat) (max_iterations : Option Nat) : Bool :=
  match max_iterations with
  | some m => decide (m ≤ counter)
  | Option.none => false

/-- The loop of `Task._run`, one external round (`advance`) per fuel unit:
while the task is incomplete, raise once the counter reaches
`max_iterations`, otherwise run one round and increment the counter; on
exit return the result, raise on failure if requested, else return null. -/
def runLoop (fuel : Nat) (advance : Store → Store) (r : Nat)
    (max_iterations : Option Nat) (raise_on_error : Bool) (σ : Store)
    (counter : Nat) : LoopOutcome :=
  match fuel with
  | 0 => LoopOutcome.pending
  | fuel' + 1 =>
    if is_incomplete σ r then
      if counterAtLimit counter max_iterations then
        LoopOutcome.iterationLimit counter
      else
        runLoop fuel' advance r max_iterations raise_on_error (advance σ)
          (counter + 1)
    else if is_successful σ r then LoopOutcome.value (task_result σ r)
    else if is_failed σ r && raise_on_error then
      LoopOutcome.taskFailed (task_error σ r)
    else LoopOutcome.value PyValue.none

/-- Resolution of the `max_iterations` argument in `_run`: `NOTSET` (outer
`none`) falls back to the process-wide `settings.max_task_iterations`; a
`None` value (inner `none`) means unbounded. -/
def resolve_max_iterations (arg : Option (Option Nat))
    (settings_max : Option Nat) : Option Nat :=
  match arg with
  | some v => v
  | Option.none => settings_max

/-- Method `Task.run`: drives `_run` from counter 0 with the resolved cap. -/
def run (fuel : Nat) (advance : Store → Store) (r : Nat)
    (arg_max : Option (Option Nat)) (settings_max : Option Nat)
    (raise_on_error : Bool) (σ : Store) : LoopOutcome :=
  runLoop fuel advance r (resolve_max_iterations arg_max settings_max)
    raise_on_error σ 0

/-! ## Helper lemmas -/

theorem setAdd_mem_self (xs : List Nat) (x : Nat) : x ∈ setAdd xs x := by
  by_cases h : x ∈ xs <;> simp [setAdd, h]

theorem mem_setAdd_of_mem {xs : List Nat} {y : Nat} (x : Nat) (h : y ∈ xs) :
    y ∈ setAdd xs x := by
  by_cases hx : x ∈ xs <;> simp [setAdd, hx, h]

theorem setAdd_eq_of_mem {xs : List Nat} {x : Nat} (h : x ∈ xs) :
    setAdd xs x = xs := by
  simp [setAdd, h]

theorem Store.set_same (σ : Store) (r : Nat) (d : Task) :
    (σ.set r d) r = some d := by
  simp [Store.set]

theorem Store.set_other (σ : Store) (r j : Nat) (d : Task) (h : j ≠ r) :
    (σ.set r d) j = σ j := by
  simp [Store.set, h]

theorem Store.set_self_eq (σ : Store) (r : Nat) (d : Task) (h : σ r = some d) :
    σ.set r d = σ := by
  funext j
  by_cases hj : j = r
  · subst hj; simp [Store.set, h]
  · simp [Store.set, hj]

/-- The construction-immutable part of a task record: status and declared
result type. -/
def task_mode (σ : Store) (t : Nat) : Option (TaskStatus × ResultType) :=
  (σ t).map (fun d => (d.status, d.result_type))

theorem task_mode_set (σ : Store) (r : Nat) (d d0 : Task) (h : σ r = some d0)
    (hs : d.status = d0.status) (hrt : d.result_type = d0.result_type)
    (t : Nat) : task_mode (σ.set r d) t = task_mode σ t := by
  unfold task_mode Store.set
  by_cases ht : t = r <;> simp [ht, h, hs, hrt]

theorem task_mode_depends_on_add (σ : Store) (a b t : Nat) :
    task_mode (depends_on_add σ a b) t = task_mode σ t := by
  unfold depends_on_add
  cases ha : σ a with
  | none => rfl
  | some da =>
    exact task_mode_set σ a
      { da with depends_on := setAdd da.depends_on b } da ha rfl rfl t

theorem task_mode_downstreams_add (σ : Store) (a b t : Nat) :
    task_mode (downstreams_add σ a b) t = task_mode σ t := by
  unfold downstreams_add
  cases hb : σ b with
  | none => rfl
  | some db =>
    exact task_mode_set σ b
      { db with downstreams := setAdd db.downstreams a } db hb rfl rfl t

theorem task_mode_add_dependency (σ : Store) (a b t : Nat) :
    task_mode (add_dependency σ a b) t = task_mode σ t := by
  unfold add_dependency
  rw [task_mode_downstreams_add, task_mode_depends_on_add]

theorem task_mode_context_dep_add (σ : Store) (r u t : Nat) :
    task_mode (context_dep_add σ r u) t = task_mode σ t := by
  unfold context_dep_add
  cases hr : σ r with
  | none => rfl
  | some d =>
    exact task_mode_set σ r
      { d with depends_on := setAdd d.depends_on u } d hr rfl rfl t

theorem task_mode_context_fold (σ : Store) (r : Nat) (l : List Nat) (t : Nat) :
    task_mode (context_fold σ r l) t = task_mode σ t := by
  induction l generalizing σ with
  | nil => rfl
  | cons x xs ih =>
    show task_mode (context_fold _ r xs) t = _
    rw [ih, task_mode_context_dep_add]

theorem task_mode_subtask_parent_wire (σ σ' : Store) (p c : Nat)
    (h : subtask_parent_wire σ p c = Except.ok σ') (t : Nat) :
    task_mode σ' t = task_mode σ t := by
  unfold subtask_parent_wire at h
  cases hc : σ c with
  | none => simp only [hc] at h; exact absurd h (by simp)
  | some dc =>
    simp only [hc] at h
    cases hpar : dc.parent with
    | none =>
      simp only [hpar, Except.ok.injEq] at h
      subst h
      exact task_mode_set σ c { dc with parent := some p } dc hc rfl rfl t
    | some q =>
      simp only [hpar] at h
      by_cases hqp : q = p
      · rw [if_pos hqp] at h
        simp only [Except.ok.injEq] at h
        subst h; rfl
      · rw [if_neg hqp] at h
        exact absurd h (by simp)

theorem task_mode_subtask_register (σ σ' : Store) (p c : Nat)
    (h : subtask_register σ p c = Except.ok σ') (t : Nat) :
    task_mode σ' t = task_mode σ t := by
  unfold subtask_register at h
  cases hp : σ p with
  | none => simp only [hp] at h; exact absurd h (by simp)
  | some dp =>
    simp only [hp, Except.ok.injEq] at h
    subst h
    exact task_mode_set σ p
      { dp with
        subtasks := setAdd dp.subtasks c
        depends_on := setAdd dp.depends_on c } dp hp rfl rfl t

theorem task_mode_add_subtask (σ σ' : Store) (p c : Nat)
    (h : add_subtask σ p c = Except.ok σ') (t : Nat) :
    task_mode σ' t = task_mode σ t := by
  unfold add_subtask at h
  cases hw : subtask_parent_wire σ p c with
  | error e => simp only [hw] at h; exact absurd h (by simp)
  | ok σ1 =>
    simp only [hw] at h
    exact (task_mode_subtask_register σ1 σ' p c h t).trans
      (task_mode_subtask_parent_wire σ σ1 p c hw t)

theorem task_mode_fold_add_dependency (σ : Store) (r : Nat) (l : List Nat)
    (t : Nat) :
    task_mode (l.foldl (fun s u => add_dependency s r u) σ) t =
      task_mode σ t := by
  induction l generalizing σ with
  | nil => rfl
  | cons x xs ih =>
    show task_mode (xs.foldl _ (add_dependency σ r x)) t = _
    rw [ih, task_mode_add_dependency]

/-- After a successful `mkTask`, the new record has the declared INCOMPLETE
status default and the `result_type` the kwarg assembly produced. -/
theorem task_mode_mkTask (σ : Store) (ref : Nat) (args : InitArgs)
    (amb : List String) (ambT : List Nat) (σ' : Store)
    (h : mkTask σ ref args amb ambT = Except.ok σ') :
    task_mode σ' ref =
      some (TaskStatus.INCOMPLETE, init_result_type args.result_type) := by
  unfold mkTask at h
  cases hpar : default_parent args.parent ambT with
  | none =>
    simp only [hpar, Except.ok.injEq] at h
    subst h
    rw [task_mode_context_fold, task_mode_fold_add_dependency]
    simp [task_mode, Store.set, init_record]
  | some p =>
    simp only [hpar] at h
    cases hsub : add_subtask
        ((args.depends_on.dedup).foldl (fun s u => add_dependency s ref u)
          (σ.set ref (init_record args amb (some p)))) p ref with
    | error e => simp only [hsub] at h; exact absurd h (by simp)
    | ok σ2 =>
      simp only [hsub, Except.ok.injEq] at h
      subst h
      rw [task_mode_context_fold, task_mode_add_subtask _ _ _ _ hsub,
        task_mode_fold_add_dependency]
      simp [task_mode, Store.set, init_record]

theorem task_mode_some (σ : Store) (t : Nat) (st : TaskStatus)
    (rt : ResultType) (h : task_mode σ t = some (st, rt)) :
    task_status σ t = some st ∧ task_result_type σ t = some rt := by
  unfold task_mode at h
  cases hσ : σ t with
  | none => rw [hσ] at h; exact absurd h (by simp)
  | some d =>
    rw [hσ] at h
    simp only [Option.map_some', Option.some.injEq, Prod.mk.injEq] at h
    unfold task_status task_result_type
    rw [hσ]
    simp [h.1, h.2]

theorem is_skipped_not_successful {σ : Store} {r : Nat}
    (h : is_skipped σ r = true) : is_successful σ r = false := by
  unfold is_skipped at h
  unfold is_successful
  cases hσ : σ r with
  | none => rw [hσ] at h
  | some d =>
    rw [hσ] at h
    have h' : d.status = TaskStatus.SKIPPED := by simpa using h
    simp [h']

theorem is_skipped_not_failed {σ : Store} {r : Nat}
    (h : is_skipped σ r = true) : is_failed σ r = false := by
  unfold is_skipped at h
  unfold is_failed
  cases hσ : σ r with
  | none => rw [hσ] at h
  | some d =>
    rw [hσ] at h
    have h' : d.status = TaskStatus.SKIPPED := by simpa using h
    simp [h']

theorem is_failed_not_successful {σ : Store} {r : Nat}
    (h : is_failed σ r = true) : is_successful σ r = false := by
  unfold is_failed at h
  unfold is_successful
  cases hσ : σ r with
  | none => rw [hσ] at h
  | some d =>
    rw [hσ] at h
    have h' : d.status = TaskStatus.FAILED := by simpa using h
    simp [h']

/-! ## Claim C9 -/

/-- Claim C9 (code bug): at construction, a non-empty ambient instruction
stack should be appended to the task's instructions even when the caller
passed explicit instructions; but Python operator precedence parses
`kwargs.get("instructions") or "" + "\n" + "\n".join(ambient)` with the
whole concatenation as the right operand of `or`, so truthy explicit
instructions suppress the ambient stack entirely. With explicit `"base"`
and ambient `["extra"]` the code keeps `"base"` where the intended append
yields `"base\nextra"`; without explicit instructions the ambient text does
land. -/
theorem C9_ambient_instructions_dropped :
    init_instructions (some "base") ["extra"] = some "base" ∧
    init_instructions Option.none ["extra"] = some "extra" ∧
    some "base" ≠ some ("base" ++ "\n" ++ "extra") := by
  refine ⟨by decide, by decide, by decide⟩

/-! ## Claim C5 -/

/-- Claim C5: with `result_type` absent, result validation fails exactly on
non-null candidates and passes null through. Inside `mark_successful` the
validation error is raised before any state mutation: only the final ok
branch of `mark_successful` constructs a store, so an error return leaves
the heap untouched. -/
theorem C5_absent_result_type (agent : Option String) (σ : Store) (r : Nat)
    (result : PyValue) (d : Task) (hd : σ r = some d)
    (hrt : d.result_type = ResultType.noneRT) :
    (∀ v : PyValue, v ≠ PyValue.none →
      validate_result v ResultType.noneRT =
        Except.error "Task has result_type=None, but a result was provided.") ∧
    validate_result PyValue.none ResultType.noneRT = Except.ok PyValue.none ∧
    (result ≠ PyValue.none →
      d.depends_on.filter (fun u => is_incomplete σ u) = [] →
      d.subtasks.filter (fun u => is_incomplete σ u) = [] →
      mark_successful agent σ r result true =
        Except.error (TaskError.validation
          "Task has result_type=None, but a result was provided.")) := by
  refine ⟨?_, rfl, ?_⟩
  · intro v hv
    simp [validate_result, hv]
  · intro hres hdeps hsubs
    unfold mark_successful
    simp only [hd, hdeps, hsubs]
    simp [validate_result, hrt, hres]

/-- Task record for the C5 witness: `result_type` absent, no blockers. -/
def c5Task : Task :=
  { id := "c5", objective := "no result expected", instructions := Option.none,
    status := TaskStatus.INCOMPLETE, result := PyValue.none,
    result_type := ResultType.noneRT, error := Option.none, depends_on := [],
    subtasks := [], downstreams := [], parent := Option.none }

def c5Store : Store := fun n => if n = 0 then some c5Task else Option.none

theorem C5_witness :
    mark_successful Option.none c5Store 0 (PyValue.str "x") true =
      Except.error (TaskError.validation
        "Task has result_type=None, but a result was provided.") :=
  (C5_absent_result_type Option.none c5Store 0 (PyValue.str "x") c5Task rfl
    rfl).2.2 (by decide) rfl rfl

/-! ## Claim C10 -/

/-- Claim C10: a task built via the public constructor never has an absent
`result_type`: the constructor forwards the argument into kwargs only when
it is not `None`, so omitting it (Python default `None`) or passing `None`
explicitly both yield the declared field default `str`; `mark_successful`
on such a task therefore validates against `str` (rejecting even a null
result) instead of taking the absent-type path (which accepts null). -/
theorem C10_result_type_never_absent (σ : Store) (ref : Nat)
    (args : InitArgs) (amb : List String) (ambT : List Nat) (σ' : Store)
    (h : mkTask σ ref args amb ambT = Except.ok σ')
    (harg : args.result_type = ResultType.noneRT) :
    task_result_type σ' ref = some result_type_field_default ∧
    result_type_field_default = ResultType.tstr ∧
    (∀ arg : ResultType, init_result_type arg ≠ ResultType.noneRT) ∧
    validate_result PyValue.none ResultType.tstr =
      Except.error "Input should be a valid string" ∧
    validate_result PyValue.none ResultType.noneRT = Except.ok PyValue.none := by
  refine ⟨?_, rfl, ?_, rfl, rfl⟩
  · have hm := task_mode_mkTask σ ref args amb ambT σ' h
    rw [harg] at hm
    exact (task_mode_some _ _ _ _ hm).2
  · intro arg
    unfold init_result_type result_type_kwarg result_type_field_default
    by_cases ha : arg = ResultType.noneRT <;> simp [ha]

def c10Store : Store := fun _ => Option.none

def c10Args : InitArgs :=
  { id := "c10", objective := "communicate", instructions := Option.none,
    result_type := ResultType.noneRT, depends_on := [],
    parent := Option.none, context_tasks := [] }

def c10After : Store :=
  match mkTask c10Store 0 c10Args [] [] with
  | Except.ok σ' => σ'
  | Except.error _ => c10Store

theorem C10_witness :
    task_result_type c10After 0 = some result_type_field_default :=
  (C10_result_type_never_absent c10Store 0 c10Args [] [] c10After rfl rfl).1

/-! ## Claim C2 -/

/-- Task record for the C2 counterexample: already SUCCESSFUL. -/
def c2Task : Task :=
  { id := "c2", objective := "already done", instructions := Option.none,
    status := TaskStatus.SUCCESSFUL, result := PyValue.str "done",
    result_type := ResultType.tstr, error := Option.none, depends_on := [],
    subtasks := [], downstreams := [], parent := Option.none }

def c2Store : Store := fun n => if n = 0 then some c2Task else Option.none

/-- Claim C2 is false on the code: `mark_failed` on a SUCCESSFUL (terminal)
task moves it to FAILED, so terminal states do transition further. -/
theorem C2_counterexample :
    task_status c2Store 0 = some TaskStatus.SUCCESSFUL ∧
    task_status (mark_failed Option.none c2Store 0 (some "boom")).1 0 =
      some TaskStatus.FAILED := by
  refine ⟨by decide, by decide⟩

/-- Claim C2 (amended): the status mutators are unguarded — each writes its
target status regardless of the current state. From INCOMPLETE a task moves
only to the marked terminal state, but nothing stops a terminal task from
being moved to a different state by a later call (`mark_failed`,
`mark_skipped`, `set_status`, or a validating `mark_successful` that
passes its checks). -/
theorem C2_status_transitions_unguarded (agent : Option String) (σ : Store)
    (r : Nat) (message : Option String) (status : TaskStatus) (d : Task)
    (hd : σ r = some d) :
    task_status (mark_failed agent σ r message).1 r = some TaskStatus.FAILED ∧
    task_status (mark_skipped agent σ r).1 r = some TaskStatus.SKIPPED ∧
    task_status (set_status σ r status) r = some status ∧
    (∀ (res : PyValue) (vu : Bool) (σ' : Store) (msg : String),
      mark_successful agent σ r res vu = Except.ok (σ', msg) →
      task_status σ' r = some TaskStatus.SUCCESSFUL) := by
  refine ⟨?_, ?_, ?_, ?_⟩
  · unfold mark_failed
    simp only [hd]
    simp [set_status, Store.set, task_status]
  · unfold mark_skipped
    simp only [hd]
    simp [set_status, hd, Store.set, task_status]
  · unfold set_status
    simp only [hd]
    simp [task_status, Store.set]
  · intro res vu σ' msg h
    unfold mark_successful at h
    simp only [hd] at h
    split at h
    · exact absurd h (by simp)
    · split at h
      · exact absurd h (by simp)
      · split at h
        · exact absurd h (by simp)
        · simp only [Except.ok.injEq, Prod.mk.injEq] at h
          rw [← h.1]
          simp [set_status, Store.set, task_status]

theorem C2_witness :
    task_status (mark_failed Option.none c2Store 0 (some "boom")).1 0 =
      some TaskStatus.FAILED :=
  (C2_status_transitions_unguarded Option.none c2Store 0 (some "boom")
    TaskStatus.INCOMPLETE c2Task rfl).1

/-! ## Claim C7 -/

/-- Claim C7: when the loop exits because the task left INCOMPLETE, a
SUCCESSFUL task makes the loop return `task.result`; a FAILED task raises
the strict-failure error carrying `task.error` when the caller requested
`raise_on_error`; a SKIPPED task, or a FAILED one without `raise_on_error`,
makes the loop return null. -/
theorem C7_loop_exit (advance : Store → Store) (r : Nat)
    (max_iterations : Option Nat) (roe : Bool) (σ : Store)
    (counter fuel : Nat) (h : is_incomplete σ r = false) :
    (is_successful σ r = true →
      runLoop (fuel + 1) advance r max_iterations roe σ counter =
        LoopOutcome.value (task_result σ r)) ∧
    (is_failed σ r = true → roe = true →
      runLoop (fuel + 1) advance r max_iterations roe σ counter =
        LoopOutcome.taskFailed (task_error σ r)) ∧
    (is_skipped σ r = true ∨ (is_failed σ r = true ∧ roe = false) →
      runLoop (fuel + 1) advance r max_iterations roe σ counter =
        LoopOutcome.value PyValue.none) := by
  refine ⟨?_, ?_, ?_⟩
  · intro hs
    simp [runLoop, h, hs]
  · intro hf hroe
    simp [runLoop, h, hf, hroe, is_failed_not_successful hf]
  · rintro (hsk | ⟨hf, hroe⟩)
    · simp [runLoop, h, is_skipped_not_successful hsk,
        is_skipped_not_failed hsk]
    · simp [runLoop, h, hroe, is_failed_not_successful hf]

/-- Task record for the C7 witness: already SUCCESSFUL at loop entry. -/
def c7Task : Task :=
  { id := "c7", objective := "compute", instructions := Option.none,
    status := TaskStatus.SUCCESSFUL, result := PyValue.str "done",
    result_type := ResultType.tstr, error := Option.none, depends_on := [],
    subtasks := [], downstreams := [], parent := Option.none }

def c7Store : Store := fun n => if n = 0 then some c7Task else Option.none

theorem C7_witness :
    runLoop 1 (fun σ => σ) 0 Option.none true c7Store 0 =
      LoopOutcome.value (task_result c7Store 0) :=
  (C7_loop_exit (fun σ => σ) 0 Option.none true c7Store 0 0 rfl).1 rfl

/-! ## Claim C6 -/

theorem runLoop_limit_aux (advance : Store → Store) (r : Nat) (n : Nat)
    (roe : Bool)
    (hadv : ∀ σ', is_incomplete σ' r = true →
      is_incomplete (advance σ') r = true) :
    ∀ (fuel counter : Nat) (σ : Store), is_incomplete σ r = true →
      counter ≤ n → n - counter < fuel →
      runLoop fuel advance r (some n) roe σ counter =
        LoopOutcome.iterationLimit n := by
  intro fuel
  induction fuel with
  | zero => intro counter σ _ _ hf; omega
  | succ f ih =>
    intro counter σ hinc hle hf
    by_cases hcn : n ≤ counter
    · have heq : counter = n := Nat.le_antisymm hle hcn
      subst heq
      simp [runLoop, hinc, counterAtLimit]
    · have hlim : counterAtLimit counter (some n) = false := by
        simp only [counterAtLimit, decide_eq_false_iff_not]
        omega
      simp only [runLoop, hinc, hlim, if_true, Bool.false_eq_true,
        ite_false, ite_true]
      exact ih (counter + 1) (advance σ) (hadv σ hinc) (by omega) (by omega)

theorem runLoop_unbounded_aux (advance : Store → Store) (r : Nat)
    (roe : Bool)
    (hadv : ∀ σ', is_incomplete σ' r = true →
      is_incomplete (advance σ') r = true) :
    ∀ (fuel counter : Nat) (σ : Store), is_incomplete σ r = true →
      runLoop fuel advance r Option.none roe σ counter =
        LoopOutcome.pending := by
  intro fuel
  induction fuel with
  | zero => intro counter σ _; rfl
  | succ f ih =>
    intro counter σ hinc
    simp only [runLoop, hinc, counterAtLimit, if_true]
    rw [if_neg (by simp)]
    exact ih (counter + 1) (advance σ) (hadv σ hinc)

/-- Claim C6: with a finite cap `n`, running the loop on a task that never
leaves INCOMPLETE performs exactly `n` external rounds and then raises —
the counter is checked before each round, counts completed rounds, and its
final value `n` is carried in the raised IterationLimitError; with
`max_iterations=None`, or with the argument unset while the configured
process-wide default is `None`, no cap is ever hit (the loop is unbounded,
so the fueled model only ever reports `pending`). -/
theorem C6_iteration_limit (advance : Store → Store) (r : Nat) (σ : Store)
    (n fuel : Nat) (settings_max : Option Nat) (roe : Bool)
    (hadv : ∀ σ', is_incomplete σ' r = true →
      is_incomplete (advance σ') r = true)
    (hinc : is_incomplete σ r = true) :
    (n < fuel →
      run fuel advance r (some (some n)) settings_max roe σ =
        LoopOutcome.iterationLimit n) ∧
    run fuel advance r (some Option.none) settings_max roe σ =
      LoopOutcome.pending ∧
    (settings_max = Option.none →
      run fuel advance r Option.none settings_max roe σ =
        LoopOutcome.pending) := by
  refine ⟨?_, ?_, ?_⟩
  · intro hf
    exact runLoop_limit_aux advance r n roe hadv fuel 0 σ hinc
      (Nat.zero_le n) (by omega)
  · exact runLoop_unbounded_aux advance r roe hadv fuel 0 σ hinc
  · intro hs
    subst hs
    exact runLoop_unbounded_aux advance r roe hadv fuel 0 σ hinc

/-- Task record for the C6 witness: stays INCOMPLETE forever under an
`advance` that changes nothing. -/
def c6Task : Task :=
  { id := "c6", objective := "never finishes", instructions := Option.none,
    status := TaskStatus.INCOMPLETE, result := PyValue.none,
    result_type := ResultType.tstr, error := Option.none, depends_on := [],
    subtasks := [], downstreams := [], parent := Option.none }

def c6Store : Store := fun n => if n = 0 then some c6Task else Option.none

theorem C6_witness :
    run 3 (fun σ => σ) 0 (some (some 2)) Option.none true c6Store =
      LoopOutcome.iterationLimit 2 :=
  (C6_iteration_limit (fun σ => σ) 0 c6Store 2 3 Option.none true
    (fun _ h => h) rfl).1 (by omega)

/-! ## Claim C1 -/

theorem task_downstreams_set (σ : Store) (r : Nat) (d d0 : Task)
    (h : σ r = some d0) (hds : d.downstreams = d0.downstreams) (u : Nat) :
    task_downstreams (σ.set r d) u = task_downstreams σ u := by
  unfold task_downstreams Store.set
  by_cases hu : u = r <;> simp [hu, h, hds]

/-- Tasks used by the C1 counterexample. -/
def c1ParentTask : Task :=
  { id := "p1", objective := "parent work", instructions := Option.none,
    status := TaskStatus.INCOMPLETE, result := PyValue.none,
    result_type := ResultType.tstr, error := Option.none, depends_on := [],
    subtasks := [], downstreams := [], parent := Option.none }

def c1ChildTask : Task :=
  { id := "k1", objective := "child work", instructions := Option.none,
    status := TaskStatus.INCOMPLETE, result := PyValue.none,
    result_type := ResultType.tstr, error := Option.none, depends_on := [],
    subtasks := [], downstreams := [], parent := Option.none }

def c1Store : Store :=
  fun n =>
    if n = 0 then some c1ParentTask
    else if n = 1 then some c1ChildTask
    else Option.none

def c1After : Store :=
  match add_subtask c1Store 0 1 with
  | Except.ok σ' => σ'
  | Except.error _ => c1Store

/-- Claim C1 is false on the code: `P.add_subtask(C)` puts `C` into
`P.depends_on` but writes no reverse edge, so `P ∉ C._downstreams` while
`C ∈ P.depends_on` — the mutual-edge invariant is broken by `add_subtask`. -/
theorem C1_counterexample :
    1 ∈ task_depends_on c1After 0 ∧ ¬ 0 ∈ task_downstreams c1After 1 := by
  refine ⟨by decide, by decide⟩

/-- Claim C1 (amended): only `add_dependency` maintains the reverse edge —
after `A.add_dependency(B)`, `B ∈ A.depends_on` and `A ∈ B.downstreams`;
`add_subtask` and `_finalize`'s context folding insert into `depends_on`
while leaving every `downstreams` set unchanged, so the mutuality claimed
for all `depends_on` insertions holds only for `add_dependency` edges. -/
theorem C1_reverse_edges (σ : Store) (a b p c : Nat) (da db dp : Task)
    (ha : σ a = some da) (hb : σ b = some db) (hp : σ p = some dp) :
    (b ∈ task_depends_on (add_dependency σ a b) a ∧
      a ∈ task_downstreams (add_dependency σ a b) b) ∧
    (∀ σ', add_subtask σ p c = Except.ok σ' →
      c ∈ task_depends_on σ' p ∧
      task_downstreams σ' c = task_downstreams σ c) ∧
    (c ∈ task_depends_on (context_fold σ p [c]) p ∧
      ∀ u, task_downstreams (context_fold σ p [c]) u =
        task_downstreams σ u) := by
  refine ⟨?_, ?_, ?_⟩
  · unfold add_dependency depends_on_add downstreams_add
    by_cases hab : a = b
    · subst hab
      simp only [ha]
      constructor
      · simp only [Store.set_same]
        unfold task_depends_on
        rw [Store.set_same]
        exact setAdd_mem_self _ _
      · simp only [Store.set_same]
        unfold task_downstreams
        rw [Store.set_same]
        exact setAdd_mem_self _ _
    · simp only [ha]
      have hb1 : (σ.set a { da with depends_on := setAdd da.depends_on b }) b
          = some db := by
        rw [Store.set_other σ a b _ (fun hq => hab hq.symm)]; exact hb
      simp only [hb1]
      constructor
      · unfold task_depends_on
        rw [Store.set_other _ b a _ hab, Store.set_same]
        exact setAdd_mem_self _ _
      · unfold task_downstreams
        rw [Store.set_same]
        exact setAdd_mem_self _ _
  · intro σ' h
    unfold add_subtask at h
    cases hw : subtask_parent_wire σ p c with
    | error e => simp only [hw] at h; exact absurd h (by simp)
    | ok σ1 =>
      simp only [hw] at h
      unfold subtask_register at h
      cases hsp : σ1 p with
      | none => rw [hsp] at h; exact absurd h (by simp)
      | some dp1 =>
        rw [hsp] at h
        simp only [Except.ok.injEq] at h
        subst h
        constructor
        · unfold task_depends_on
          rw [Store.set_same]
          exact setAdd_mem_self _ _
        · have h1 : task_downstreams (σ1.set p
              { dp1 with
                subtasks := setAdd dp1.subtasks c
                depends_on := setAdd dp1.depends_on c }) c =
              task_downstreams σ1 c :=
            task_downstreams_set σ1 p
              { dp1 with
                subtasks := setAdd dp1.subtasks c
                depends_on := setAdd dp1.depends_on c } dp1 hsp rfl c
          rw [h1]
          -- downstreams unchanged by the parent wiring
          unfold subtask_parent_wire at hw
          cases hc : σ c with
          | none => simp only [hc] at hw; exact absurd hw (by simp)
          | some dc =>
            simp only [hc] at hw
            cases hpar : dc.parent with
            | none =>
              simp only [hpar, Except.ok.injEq] at hw
              subst hw
              exact task_downstreams_set σ c { dc with parent := some p }
                dc hc rfl c
            | some q =>
              simp only [hpar] at hw
              by_cases hqp : q = p
              · rw [if_pos hqp] at hw
                simp only [Except.ok.injEq] at hw
                subst hw; rfl
              · rw [if_neg hqp] at hw
                exact absurd hw (by simp)
  · constructor
    · show c ∈ task_depends_on (context_dep_add σ p c) p
      unfold context_dep_add
      simp only [hp]
      unfold task_depends_on
      rw [Store.set_same]
      exact setAdd_mem_self _ _
    · intro u
      show task_downstreams (context_dep_add σ p c) u = task_downstreams σ u
      unfold context_dep_add
      simp only [hp]
      exact task_downstreams_set σ p
        { dp with depends_on := setAdd dp.depends_on c } dp hp rfl u

/-- Store for the C1 witness: two unrelated incomplete tasks. -/
def c1wStore : Store :=
  fun n =>
    if n = 0 then some { c1ParentTask with id := "w0" }
    else if n = 1 then some { c1ChildTask with id := "w1" }
    else Option.none

theorem C1_witness :
    1 ∈ task_depends_on (add_dependency c1wStore 0 1) 0 ∧
    0 ∈ task_downstreams (add_dependency c1wStore 0 1) 1 :=
  (C1_reverse_edges c1wStore 0 1 0 1 { c1ParentTask with id := "w0" }
    { c1ChildTask with id := "w1" } { c1ParentTask with id := "w0" }
    rfl rfl rfl).1

/-! ## Claim C3 -/

/-- Claim C3: `mark_successful` with `validate_upstreams=true` on a task
with at least one incomplete dependency raises a precondition error whose
carried blocking list names each incomplete blocking task (the raised
message joins exactly this list), and returns before any mutation — only
the final ok branch of `mark_successful` builds a store, so the task's
status, result and error are untouched; likewise a schema-validation
failure (with no incomplete blockers) returns a validation error without
reaching the mutating branch. -/
theorem C3_precondition_no_mutation (agent : Option String) (σ : Store)
    (r : Nat) (result : PyValue) (d : Task) (hd : σ r = some d) :
    (d.depends_on.filter (fun u => is_incomplete σ u) ≠ [] →
      mark_successful agent σ r result true =
        Except.error (TaskError.precondition
          (dep_block_message d.objective
            ((d.depends_on.filter (fun u => is_incomplete σ u)).map
              (friendly_name_of σ)))
          ((d.depends_on.filter (fun u => is_incomplete σ u)).map
            (friendly_name_of σ))) ∧
      (∀ u ∈ d.depends_on, is_incomplete σ u = true →
        friendly_name_of σ u ∈
          (d.depends_on.filter (fun u => is_incomplete σ u)).map
            (friendly_name_of σ))) ∧
    (∀ e, d.depends_on.filter (fun u => is_incomplete σ u) = [] →
      d.subtasks.filter (fun u => is_incomplete σ u) = [] →
      validate_result result d.result_type = Except.error e →
      mark_successful agent σ r result true =
        Except.error (TaskError.validation e)) := by
  constructor
  · intro hne
    have hie : (d.depends_on.filter (fun u => is_incomplete σ u)).isEmpty
        = false := by
      cases hl : d.depends_on.filter (fun u => is_incomplete σ u) with
      | nil => exact absurd hl hne
      | cons x xs => rfl
    constructor
    · unfold mark_successful
      simp only [hd, hie]
      simp
    · intro u hu hui
      exact List.mem_map_of_mem _ (List.mem_filter.mpr ⟨hu, hui⟩)
  · intro e hdeps hsubs hv
    unfold mark_successful
    simp only [hd, hdeps, hsubs, hv]
    simp

/-- Tasks for the C3 witness: task 0 depends on the incomplete task 1. -/
def c3DepTask : Task :=
  { id := "d3", objective := "upstream duty", instructions := Option.none,
    status := TaskStatus.INCOMPLETE, result := PyValue.none,
    result_type := ResultType.tstr, error := Option.none, depends_on := [],
    subtasks := [], downstreams := [0], parent := Option.none }

def c3MainTask : Task :=
  { id := "m3", objective := "main duty", instructions := Option.none,
    status := TaskStatus.INCOMPLETE, result := PyValue.none,
    result_type := ResultType.tstr, error := Option.none, depends_on := [1],
    subtasks := [], downstreams := [], parent := Option.none }

def c3Store : Store :=
  fun n =>
    if n = 0 then some c3MainTask
    else if n = 1 then some c3DepTask
    else Option.none

theorem C3_witness :
    mark_successful Option.none c3Store 0 (PyValue.str "x") true =
      Except.error (TaskError.precondition
        (dep_block_message c3MainTask.objective
          ((c3MainTask.depends_on.filter
            (fun u => is_incomplete c3Store u)).map
            (friendly_name_of c3Store)))
        ((c3MainTask.depends_on.filter
          (fun u => is_incomplete c3Store u)).map
          (friendly_name_of c3Store))) :=
  ((C3_precondition_no_mutation Option.none c3Store 0 (PyValue.str "x")
    c3MainTask rfl).1 (by decide)).1

/-! ## Claim C4 -/

theorem add_subtask_ok_fields (σ : Store) (p c : Nat) (dp dc : Task)
    (hp : σ p = some dp) (hc : σ c = some dc) (σ' : Store)
    (h : add_subtask σ p c = Except.ok σ') :
    (∃ dc', σ' c = some dc' ∧ dc'.parent = some p) ∧
    ∃ dp', σ' p = some dp' ∧ c ∈ dp'.subtasks ∧ c ∈ dp'.depends_on := by
  unfold add_subtask subtask_parent_wire at h
  simp only [hc] at h
  cases hpar : dc.parent with
  | none =>
    simp only [hpar] at h
    unfold subtask_register at h
    by_cases hpc : p = c
    · subst hpc
      simp only [Store.set_same] at h
      simp only [Except.ok.injEq] at h
      subst h
      exact ⟨⟨_, Store.set_same _ _ _, rfl⟩,
        _, Store.set_same _ _ _, setAdd_mem_self _ _, setAdd_mem_self _ _⟩
    · have hsp : (σ.set c { dc with parent := some p }) p = some dp := by
        rw [Store.set_other σ c p _ hpc]; exact hp
      simp only [hsp] at h
      simp only [Except.ok.injEq] at h
      subst h
      refine ⟨⟨{ dc with parent := some p }, ?_, rfl⟩,
        _, Store.set_same _ _ _, setAdd_mem_self _ _, setAdd_mem_self _ _⟩
      rw [Store.set_other _ p c _ (fun hq => hpc hq.symm)]
      exact Store.set_same σ c _
  | some q =>
    simp only [hpar] at h
    by_cases hqp : q = p
    · subst hqp
      rw [if_pos rfl] at h
      change subtask_register σ q c = Except.ok σ' at h
      unfold subtask_register at h
      simp only [hp] at h
      simp only [Except.ok.injEq] at h
      subst h
      refine ⟨?_, _, Store.set_same _ _ _, setAdd_mem_self _ _,
        setAdd_mem_self _ _⟩
      by_cases hpc : q = c
      · subst hpc
        have hdd : dp = dc := by
          rw [hp] at hc
          exact Option.some.inj hc
        refine ⟨_, Store.set_same _ _ _, ?_⟩
        show dp.parent = some q
        rw [hdd, hpar]
      · refine ⟨dc, ?_, hpar⟩
        rw [Store.set_other _ q c _ (fun hq => hpc hq.symm)]
        exact hc
    · rw [if_neg hqp] at h
      exact absurd h (by simp)

/-- Claim C4: `P.add_subtask(C)` sets `C.parent` to `P` when it was unset,
raises a configuration error when `C.parent` is already a different task,
and is a no-op when repeated; in every non-error case it inserts `C` into
both `P._subtasks` and `P.depends_on`. -/
theorem C4_add_subtask_contract (σ : Store) (p c : Nat) (dp dc : Task)
    (hp : σ p = some dp) (hc : σ c = some dc) :
    ((dc.parent = Option.none ∨ dc.parent = some p) →
      ∃ σ', add_subtask σ p c = Except.ok σ') ∧
    (∀ σ', add_subtask σ p c = Except.ok σ' →
      task_parent σ' c = some p ∧
      c ∈ task_subtasks σ' p ∧ c ∈ task_depends_on σ' p) ∧
    (∀ q, dc.parent = some q → q ≠ p →
      add_subtask σ p c = Except.error (TaskError.configuration
        (friendly_name_of σ p ++ " already has a parent."))) ∧
    (∀ σ', add_subtask σ p c = Except.ok σ' →
      add_subtask σ' p c = Except.ok σ') := by
  refine ⟨?_, ?_, ?_, ?_⟩
  · rintro (hnone | hsame)
    · unfold add_subtask subtask_parent_wire
      simp only [hc, hnone]
      unfold subtask_register
      by_cases hpc : p = c
      · subst hpc
        simp only [Store.set_same]
        exact ⟨_, rfl⟩
      · have hsp : (σ.set c { dc with parent := some p }) p = some dp := by
          rw [Store.set_other σ c p _ hpc]; exact hp
        simp only [hsp]
        exact ⟨_, rfl⟩
    · unfold add_subtask subtask_parent_wire
      simp only [hc, hsame, ite_true, if_true]
      change ∃ σ', subtask_register σ p c = Except.ok σ'
      unfold subtask_register
      simp only [hp]
      exact ⟨_, rfl⟩
  · intro σ' h
    obtain ⟨⟨dc', hσc, hpar'⟩, dp', hσp, hsub, hdep⟩ :=
      add_subtask_ok_fields σ p c dp dc hp hc σ' h
    refine ⟨?_, ?_, ?_⟩
    · unfold task_parent
      rw [hσc]
      exact hpar'
    · unfold task_subtasks
      rw [hσp]
      exact hsub
    · unfold task_depends_on
      rw [hσp]
      exact hdep
  · intro q hq hqp
    unfold add_subtask subtask_parent_wire
    simp only [hc, hq]
    rw [if_neg hqp]
  · intro σ' h
    obtain ⟨⟨dc', hσc, hpar'⟩, dp', hσp, hsub, hdep⟩ :=
      add_subtask_ok_fields σ p c dp dc hp hc σ' h
    unfold add_subtask subtask_parent_wire
    simp only [hσc, hpar', ite_true, if_true]
    change subtask_register σ' p c = Except.ok σ'
    unfold subtask_register
    simp only [hσp]
    rw [setAdd_eq_of_mem hsub, setAdd_eq_of_mem hdep]
    exact congrArg Except.ok (Store.set_self_eq σ' p dp' hσp)

/-- Tasks for the C4 witness: a parent and an orphan child. -/
def c4ParentTask : Task :=
  { id := "p4", objective := "parent job", instructions := Option.none,
    status := TaskStatus.INCOMPLETE, result := PyValue.none,
    result_type := ResultType.tstr, error := Option.none, depends_on := [],
    subtasks := [], downstreams := [], parent := Option.none }

def c4ChildTask : Task :=
  { id := "k4", objective := "child job", instructions := Option.none,
    status := TaskStatus.INCOMPLETE, result := PyValue.none,
    result_type := ResultType.tstr, error := Option.none, depends_on := [],
    subtasks := [], downstreams := [], parent := Option.none }

def c4Store : Store :=
  fun n =>
    if n = 0 then some c4ParentTask
    else if n = 1 then some c4ChildTask
    else Option.none

def c4After : Store :=
  match add_subtask c4Store 0 1 with
  | Except.ok σ' => σ'
  | Except.error _ => c4Store

theorem C4_witness :
    task_parent c4After 1 = some 0 ∧
    1 ∈ task_subtasks c4After 0 ∧ 1 ∈ task_depends_on c4After 0 :=
  (C4_add_subtask_contract c4Store 0 1 c4ParentTask c4ChildTask
    rfl rfl).2.1 c4After rfl

/-! ## Claim C8 -/

theorem is_ready_iff (σ : Store) (r : Nat) (d : Task) (hd : σ r = some d) :
    (is_ready σ r = true ↔
      (d.status = TaskStatus.INCOMPLETE ∧
        ∀ u ∈ d.depends_on, is_complete σ u = true)) := by
  unfold is_ready is_incomplete task_depends_on
  rw [hd]
  simp [List.all_eq_true]

/-- Task already complete before the C8 counterexample construction. -/
def c8DepTask : Task :=
  { id := "u8", objective := "upstream done", instructions := Option.none,
    status := TaskStatus.SUCCESSFUL, result := PyValue.str "ok",
    result_type := ResultType.tstr, error := Option.none, depends_on := [],
    subtasks := [], downstreams := [], parent := Option.none }

def c8Store : Store := fun n => if n = 1 then some c8DepTask else Option.none

def c8Args : InitArgs :=
  { id := "f8", objective := "fresh work", instructions := Option.none,
    result_type := ResultType.tstr, depends_on := [1],
    parent := Option.none, context_tasks := [] }

def c8After : Store :=
  match mkTask c8Store 2 c8Args [] [] with
  | Except.ok σ' => σ'
  | Except.error _ => c8Store

/-- Claim C8 is false as stated: a freshly constructed task whose single
dependency is already SUCCESSFUL has `is_ready = true` although its
`depends_on` is non-empty, so readiness is not equivalent to `depends_on`
being empty. -/
theorem C8_counterexample :
    task_status c8After 2 = some TaskStatus.INCOMPLETE ∧
    is_ready c8After 2 = true ∧ task_depends_on c8After 2 ≠ [] := by
  refine ⟨by decide, by decide, by decide⟩

/-- Claim C8 (amended): a freshly constructed task has status INCOMPLETE,
and `is_ready` is true iff every member of `depends_on` is complete — in
particular it is true when `depends_on` is empty, but also for a non-empty
`depends_on` whose members are all already complete. -/
theorem C8_fresh_task (σ : Store) (ref : Nat) (args : InitArgs)
    (amb : List String) (ambT : List Nat) (σ' : Store)
    (h : mkTask σ ref args amb ambT = Except.ok σ') :
    task_status σ' ref = some TaskStatus.INCOMPLETE ∧
    (is_ready σ' ref = true ↔
      ∀ u ∈ task_depends_on σ' ref, is_complete σ' u = true) ∧
    (task_depends_on σ' ref = [] → is_ready σ' ref = true) := by
  have hm := task_mode_mkTask σ ref args amb ambT σ' h
  have hst := (task_mode_some _ _ _ _ hm).1
  have hiff : is_ready σ' ref = true ↔
      ∀ u ∈ task_depends_on σ' ref, is_complete σ' u = true := by
    cases hσ : σ' ref with
    | none =>
      unfold task_status at hst
      rw [hσ] at hst
      exact absurd hst (by simp)
    | some d' =>
      have hds : d'.status = TaskStatus.INCOMPLETE := by
        unfold task_status at hst
        rw [hσ] at hst
        simpa using hst
      rw [is_ready_iff σ' ref d' hσ]
      unfold task_depends_on
      rw [hσ]
      simp [hds]
  refine ⟨hst, hiff, fun hdep => hiff.mpr ?_⟩
  rw [hdep]
  intro u hu
  exact absurd hu (List.not_mem_nil u)

theorem C8_witness : is_ready c8After 2 = true :=
  ((C8_fresh_task c8Store 2 c8Args [] [] c8After rfl).2.1).mpr (by decide)

end ControlFlow
